import Mathlib

namespace VendorWatch

/-!
Verification of the VendorWatch change-detection and risk-classification
pipeline.  The definitions below are shallow embeddings of the TypeScript
sources:

* `src/lib/services/hashing.ts`        — fingerprint engine
* `src/lib/services/rule-engine.ts`    — rule engine and risk-event selection
* `src/lib/services/urlFilter.ts`      — URL relevance filter
* `src/lib/services/extraction-validation.ts` — hallucination guard
* `src/lib/services/relevanceFilter.ts`— structured-data keyword filter
* `src/lib/services/reducto.ts`        — extraction candidate list and loop
* `src/lib/config/alert-preferences.ts`, `src/lib/services/alert.ts` — alert gate
* `src/lib/services/monitor.ts`        — cycle orchestrator

External collaborators (scraper, crawler, search, extractor, narrative
generator, notification transport, document store) are modelled as oracle
inputs; the persistent store is modelled as the ordered list of writes the
cycle issues.  JavaScript strings are modelled as Lean `String`.
-/

/-! ## Fingerprint engine (`hashing.ts`) -/

/-- Whitespace characters matched by the JavaScript regex class `\s` and by
`String.prototype.trim`, restricted to the ASCII range. -/
def isWsChar (c : Char) : Bool :=
  c = ' ' || c = '\t' || c = '\n' || c = '\r' || c = '\x0b' || c = '\x0c'

/-- Embedding of `text.replace(/\s+/g, " ")`: every maximal nonempty run of
whitespace characters is replaced by a single space. -/
def squeezeWs : List Char → List Char
  | [] => []
  | [c] => if isWsChar c then [' '] else [c]
  | c :: d :: rest =>
    if isWsChar c && isWsChar d then squeezeWs (d :: rest)
    else (if isWsChar c then ' ' else c) :: squeezeWs (d :: rest)

/-- Embedding of `text.replace(/\n+/g, "\n")`: every maximal run of newline
characters is replaced by a single newline. -/
def squeezeNl : List Char → List Char
  | [] => []
  | [c] => [c]
  | c :: d :: rest =>
    if c = '\n' && d = '\n' then squeezeNl (d :: rest)
    else c :: squeezeNl (d :: rest)

/-- Drop trailing whitespace (the right half of `String.prototype.trim`). -/
def dropRightWs : List Char → List Char
  | [] => []
  | c :: rest =>
    if dropRightWs rest = [] then (if isWsChar c then [] else [c])
    else c :: dropRightWs rest

/-- Embedding of `String.prototype.trim`: drop leading and trailing
whitespace. -/
def trimWsChars (l : List Char) : List Char :=
  dropRightWs (l.dropWhile isWsChar)

/-- Embedding of `normalizeText` from `hashing.ts`:
`text.trim().replace(/\s+/g, " ").replace(/\n+/g, "\n")`. -/
def normalizeText (s : String) : String :=
  ⟨squeezeNl (squeezeWs (trimWsChars s.data))⟩

/-- Embedding of `hashContent` from `hashing.ts`: SHA-256 (hex) of the normalized text.
The hash itself is Node's `crypto` library, an external primitive; it is
passed in as the function `sha256hex`. -/
def hashContent (sha256hex : String → String) (text : String) : String :=
  sha256hex (normalizeText text)

/-- Collapse every run of a repeated whitespace character to a single
occurrence (so two spaces become one, two newlines become one newline);
everything else is kept. -/
def collapseWsRuns : List Char → List Char
  | [] => []
  | [c] => [c]
  | c :: d :: rest =>
    if isWsChar c && c = d then collapseWsRuns (d :: rest)
    else c :: collapseWsRuns (d :: rest)

/-- Modelled from the spec: two texts "differ only by whitespace repetition"
when collapsing repeated whitespace characters makes them equal. -/
def wsRepetitionOnly (a b : String) : Bool :=
  collapseWsRuns a.data == collapseWsRuns b.data

/-! ## Rule engine (`rule-engine.ts`) -/

/-- JavaScript `string | string[]` field values. -/
inductive StrOrList where
  | str (s : String)
  | list (l : List String)
deriving DecidableEq, Repr

/-- Embedding of `VendorStructuredData` from `rule-engine.ts`: the fixed extraction schema.
A missing key is `none`.  The free-text `summary` key the extractor may add is
carried too (it is skipped by field counts and by the keyword filter). -/
structure VendorStructuredData where
  pricing_terms : Option StrOrList := none
  fee_structures : Option StrOrList := none
  liability_clauses : Option StrOrList := none
  indemnification_terms : Option StrOrList := none
  termination_terms : Option StrOrList := none
  renewal_terms : Option StrOrList := none
  data_retention_policies : Option StrOrList := none
  data_residency_locations : Option StrOrList := none
  encryption_practices : Option StrOrList := none
  compliance_references : Option StrOrList := none
  sla_uptime_commitments : Option StrOrList := none
  support_response_times : Option StrOrList := none
  data_export_rights : Option StrOrList := none
  summary : Option String := none
deriving DecidableEq, Repr

/-- ASCII lowercasing of one character, as `String.prototype.toLowerCase`
acts on the ASCII range. -/
def toLowerChar (c : Char) : Char :=
  if 'A' ≤ c && c ≤ 'Z' then Char.ofNat (c.toNat + 32) else c

/-- Embedding of `String.prototype.toLowerCase` (ASCII range). -/
def jsToLower (s : String) : String := ⟨s.data.map toLowerChar⟩

/-- Embedding of `String.prototype.trim`. -/
def jsTrim (s : String) : String := ⟨trimWsChars s.data⟩

/-- Embedding of `Array.prototype.join(sep)`. -/
def joinWith (sep : String) : List String → String
  | [] => ""
  | [s] => s
  | s :: rest => s ++ sep ++ joinWith sep rest

/-- Embedding of `toStr` from `rule-engine.ts`: `""` for a missing value, otherwise join a
list with spaces after dropping empty entries, then trim and lowercase. -/
def toStr : Option StrOrList → String
  | none => ""
  | some (.str s) => jsToLower (jsTrim s)
  | some (.list l) => jsToLower (jsTrim (joinWith " " (l.filter (fun s => s ≠ ""))))

/-- Embedding of `changed` from `rule-engine.ts`. -/
def changed (oldVal newVal : Option StrOrList) : Bool :=
  toStr oldVal != toStr newVal

/-- Embedding of `isEmpty` from `rule-engine.ts`. -/
def isEmpty (val : Option StrOrList) : Bool :=
  toStr val == ""

inductive RiskType where
  | financial | legal | security | operational
deriving DecidableEq, Repr

inductive Severity where
  | low | medium | high
deriving DecidableEq, Repr

/-- Embedding of `RuleRiskResult` from `rule-engine.ts`. -/
structure RuleRiskResult where
  type : RiskType
  severity : Severity
  summary : String
  recommendedAction : String
deriving DecidableEq, Repr

def financialRule : RuleRiskResult :=
  { type := .financial, severity := .medium
    summary := "Pricing terms or fee structures have changed. Review the updated terms for cost or payment impact."
    recommendedAction := "1) Compare old and new pricing/fee sections. 2) Update internal cost models if needed. 3) Notify procurement or finance if material." }

def liabilityRule : RuleRiskResult :=
  { type := .legal, severity := .medium
    summary := "Liability or limitation-of-liability language has changed. May affect risk allocation."
    recommendedAction := "1) Review the new liability clauses. 2) Compare to previous terms. 3) Escalate to legal if cap decreased or scope narrowed." }

def terminationRule : RuleRiskResult :=
  { type := .legal, severity := .medium
    summary := "Termination or notice period terms have changed. May affect exit or renewal timing."
    recommendedAction := "1) Check new notice periods and termination conditions. 2) Update runbooks if notice period increased. 3) Document for contract reviews." }

def indemnificationRule : RuleRiskResult :=
  { type := .legal, severity := .medium
    summary := "Indemnification language has changed. May affect who bears risk for claims."
    recommendedAction := "1) Review new indemnification terms. 2) Compare to previous. 3) Involve legal if scope or carve-outs changed." }

def dataResidencyRule : RuleRiskResult :=
  { type := .security, severity := .high
    summary := "Data residency or data location commitments have changed. May impact compliance (e.g. GDPR, locality)."
    recommendedAction := "1) Confirm where data will be processed/stored. 2) Check compliance impact. 3) Update DPA or risk register if needed." }

def complianceRule (removed : Bool) : RuleRiskResult :=
  { type := .security
    severity := if removed then .high else .medium
    summary := if removed
      then "Compliance references have been removed. Verify vendor still meets required certifications."
      else "Compliance or certification references have changed. Verify continued alignment."
    recommendedAction := "1) List current compliance claims. 2) Re-verify certifications if critical. 3) Update vendor risk assessment." }

def dataRetentionRule : RuleRiskResult :=
  { type := .security, severity := .medium
    summary := "Data retention policy has changed. May affect deletion obligations or audit requirements."
    recommendedAction := "1) Review new retention periods and deletion process. 2) Align with internal retention policy. 3) Update DPIA if needed." }

def slaRule : RuleRiskResult :=
  { type := .operational, severity := .medium
    summary := "SLA or uptime commitments have changed. May affect availability guarantees."
    recommendedAction := "1) Compare old and new SLA numbers. 2) If weakened, assess impact and escalation. 3) Document in vendor file." }

def supportRule : RuleRiskResult :=
  { type := .operational, severity := .low
    summary := "Support or response-time commitments have changed."
    recommendedAction := "1) Review new support terms. 2) Update escalation playbooks if needed." }

/-- Embedding of `runRuleEngine` from `rule-engine.ts`: per-field comparison in the fixed
source order, appending one canned result per firing rule. -/
def runRuleEngine (oldData newData : Option VendorStructuredData) : List RuleRiskResult :=
  let old_ := oldData.getD {}
  let new_ := newData.getD {}
  (if changed old_.pricing_terms new_.pricing_terms
      || changed old_.fee_structures new_.fee_structures then [financialRule] else [])
  ++ (if changed old_.liability_clauses new_.liability_clauses then [liabilityRule] else [])
  ++ (if changed old_.termination_terms new_.termination_terms then [terminationRule] else [])
  ++ (if changed old_.indemnification_terms new_.indemnification_terms then [indemnificationRule] else [])
  ++ (if changed old_.data_residency_locations new_.data_residency_locations then [dataResidencyRule] else [])
  ++ (if changed old_.compliance_references new_.compliance_references then
        [complianceRule (isEmpty new_.compliance_references && !isEmpty old_.compliance_references)]
      else [])
  ++ (if changed old_.data_retention_policies new_.data_retention_policies then [dataRetentionRule] else [])
  ++ (if changed old_.sla_uptime_commitments new_.sla_uptime_commitments then [slaRule] else [])
  ++ (if changed old_.support_response_times new_.support_response_times then [supportRule] else [])

/-- Embedding of `ruleResultToRiskEvent` from `rule-engine.ts`: first rule result, or the
low-severity operational fallback. -/
def ruleResultToRiskEvent (ruleResults : List RuleRiskResult)
    (fallbackSummary fallbackAction : String) : RuleRiskResult :=
  match ruleResults with
  | first :: _ => first
  | [] =>
    { type := .operational, severity := .low
      summary := fallbackSummary, recommendedAction := fallbackAction }

/-- Sample structured data for the C3 counterexample: data residency "EU". -/
def exResA : VendorStructuredData := { data_residency_locations := some (.str "EU") }

/-- Sample structured data for the C3 counterexample: data residency "eu". -/
def exResB : VendorStructuredData := { data_residency_locations := some (.str "eu") }

/-! ## URL model

A minimal model of the WHATWG `URL` constructor for well-formed
`http(s)://host/path` URLs: scheme, lowercased hostname (port excluded) and
pathname.  Userinfo, percent-encoding and dot-segment normalization are not
modelled; URLs without an `http`/`https` scheme or without a host parse to
`none` (in the repository such inputs either throw or produce a hostname that
fails every domain check). -/

structure ParsedUrl where
  scheme : String
  host : String
  pathname : String
deriving DecidableEq, Repr

/-- Check that `needle` is a prefix of `hay` (character lists). -/
def charsStartWith : List Char → List Char → Bool
  | _, [] => true
  | [], _ :: _ => false
  | a :: as, b :: bs => a = b && charsStartWith as bs

/-- Check that `needle` occurs somewhere in `hay` (character lists). -/
def charsContain : List Char → List Char → Bool
  | [], needle => charsStartWith [] needle
  | a :: rest, needle => charsStartWith (a :: rest) needle || charsContain rest needle

/-- Embedding of `String.prototype.includes`. -/
def includes (hay needle : String) : Bool :=
  charsContain hay.data needle.data

/-- Embedding of `String.prototype.endsWith`. -/
def jsEndsWith (hay suffix : String) : Bool :=
  charsStartWith hay.data.reverse suffix.data.reverse

/-- Split a character list at every separator, keeping empty pieces, as
JavaScript `String.prototype.split` does. -/
def splitChars (p : Char → Bool) : List Char → List (List Char)
  | [] => [[]]
  | c :: rest =>
    let r := splitChars p rest
    if p c then [] :: r
    else
      match r with
      | h :: t => (c :: h) :: t
      | [] => [[c]]

/-- Parse an `http(s)` URL into scheme, lowercased host and pathname. -/
def parseUrl (url : String) : Option ParsedUrl :=
  let scheme : String :=
    if "https://".data.isPrefixOf url.data then "https"
    else if "http://".data.isPrefixOf url.data then "http"
    else ""
  if scheme == "" then none
  else
    let rest := url.data.drop (scheme.length + 3)
    let hostPort := rest.takeWhile (fun c => c ≠ '/' && c ≠ '?' && c ≠ '#')
    let after := rest.dropWhile (fun c => c ≠ '/' && c ≠ '?' && c ≠ '#')
    let host : String := jsToLower ⟨hostPort.takeWhile (fun c => c ≠ ':')⟩
    if host == "" then none
    else
      let pathname : String :=
        match after with
        | [] => "/"
        | a :: _ =>
          if a = '/' then ⟨after.takeWhile (fun c => c ≠ '?' && c ≠ '#')⟩ else "/"
      some { scheme := scheme, host := host, pathname := pathname }

/-! ## URL relevance filter (`urlFilter.ts`) -/

def PATH_ALLOW : List String :=
  ["terms", "legal", "privacy", "security", "trust", "sla", "uptime",
   "compliance", "dpa", "data-processing", "subprocessor", "pricing", "fees",
   "billing", "support"]

def PATH_BLOCK : List String :=
  ["blog", "news", "press", "media", "events", "community", "forum",
   "careers", "about", "investors", "stories", "case-study"]

/-- Embedding of `getRootDomain` from `urlFilter.ts`: strip a leading `www.`, then take the
last two labels — or three when the final two form a known two-part TLD. -/
def getRootDomain (hostname : String) : String :=
  let stripped : String :=
    if jsToLower ⟨hostname.data.take 4⟩ == "www." then ⟨hostname.data.drop 4⟩
    else hostname
  let parts : List String := (splitChars (fun c => c = '.') stripped.data).map (fun l => (⟨l⟩ : String))
  if parts.length ≥ 3 then
    let twoPartTlds : List String := ["co.uk", "com.au", "co.nz", "co.jp", "com.br"]
    let lastTwo := joinWith "." (parts.drop (parts.length - 2))
    if twoPartTlds.contains lastTwo then joinWith "." (parts.drop (parts.length - 3))
    else lastTwo
  else stripped

/-- Embedding of `isOnVendorDomain` from `urlFilter.ts`. -/
def isOnVendorDomain (vendorDomain url : String) : Bool :=
  match parseUrl url with
  | none => false
  | some p =>
    let host := jsToLower p.host
    let root := getRootDomain (jsToLower vendorDomain)
    let urlRoot := getRootDomain host
    if urlRoot ≠ root then false
    else host == root || host == "www." ++ root || jsEndsWith host ("." ++ root)

/-- Embedding of `hasAllowedPathKeyword` from `urlFilter.ts`: keyword patterns are checked
against the whole lowercased URL string, then plain containment against the
pathname. -/
def hasAllowedPathKeyword (url : String) : Bool :=
  let lower := jsToLower url
  (PATH_ALLOW.any fun kw =>
    includes lower ("/" ++ kw) || includes lower ("/" ++ kw ++ "/")
      || includes lower ("-" ++ kw ++ "-") || includes lower ("-" ++ kw)
      || jsEndsWith lower ("-" ++ kw))
  || (match parseUrl url with
      | some p => PATH_ALLOW.any fun kw => includes (jsToLower p.pathname) kw
      | none => false)

/-- Embedding of `hasBlockedPathKeyword` from `urlFilter.ts`: note the final
`lower.includes(kw)` disjunct, which matches the keyword anywhere in the URL
string, host included. -/
def hasBlockedPathKeyword (url : String) : Bool :=
  let lower := jsToLower url
  PATH_BLOCK.any fun kw =>
    includes lower ("/" ++ kw) || includes lower ("/" ++ kw ++ "/")
      || includes lower ("-" ++ kw ++ "-") || includes lower ("-" ++ kw)
      || includes lower kw

/-- Embedding of `isRelevantVendorUrl` from `urlFilter.ts`. -/
def isRelevantVendorUrl (vendorDomain url : String) : Bool :=
  if jsTrim vendorDomain == "" || jsTrim url == "" then false
  else
    match parseUrl url with
    | none => false
    | some _ =>
      if !isOnVendorDomain vendorDomain url then false
      else if hasBlockedPathKeyword url then false
      else if !hasAllowedPathKeyword url then false
      else true

/-- Modelled from the spec (claim C5 wording): the candidate URL's *path*
contains a block-list keyword. -/
def specPathHasBlockKeyword (url : String) : Bool :=
  match parseUrl url with
  | some p => PATH_BLOCK.any fun kw => includes (jsToLower p.pathname) kw
  | none => false

/-- Modelled from the spec (claim C5 wording): the candidate URL's *path*
contains an allow-list keyword. -/
def specPathHasAllowKeyword (url : String) : Bool :=
  match parseUrl url with
  | some p => PATH_ALLOW.any fun kw => includes (jsToLower p.pathname) kw
  | none => false

/-! ## Hallucination guard (`extraction-validation.ts`) -/

def LEGAL_KEYWORDS : List String :=
  ["liability", "indemnif", "terms of service", "terms and conditions",
   "agreement", "privacy policy", "subscription", "governing law",
   "arbitration", "limitation of liability", "data retention", "sla",
   "uptime", "gdpr", "soc 2", "iso 27001"]

/-- Drop one trailing slash, as `pathname.replace(/\/$/, "")` does. -/
def dropTrailingSlash (l : List Char) : List Char :=
  if l.getLast? = some '/' then l.dropLast else l

/-- Embedding of `isHomepage` from `extraction-validation.ts`: the URL parses and its path
is the bare root. -/
def isHomepage (url : String) : Bool :=
  match parseUrl url with
  | none => false
  | some u =>
    let stripped : String := ⟨dropTrailingSlash u.pathname.data⟩
    (if stripped == "" then "/" else stripped) == "/"

/-- Number of populated non-free-text fields: the keys of the record other
than the skip set (`summary`, `rawText`, `extractedText`). -/
def fieldCount (data : VendorStructuredData) : Nat :=
  [data.pricing_terms.isSome, data.fee_structures.isSome,
   data.liability_clauses.isSome, data.indemnification_terms.isSome,
   data.termination_terms.isSome, data.renewal_terms.isSome,
   data.data_retention_policies.isSome, data.data_residency_locations.isSome,
   data.encryption_practices.isSome, data.compliance_references.isSome,
   data.sla_uptime_commitments.isSome, data.support_response_times.isSome,
   data.data_export_rights.isSome].count true

/-- Embedding of `looksHallucinated` from `extraction-validation.ts`: reject a rich
extraction result that came from a bare homepage whose scraped text shows no
legal content in its first 12000 characters. -/
def looksHallucinated (data : VendorStructuredData) (sourceUrl extractedText : String) : Bool :=
  if fieldCount data < 4 then false
  else if !isHomepage sourceUrl then false
  else
    let text := jsToLower ⟨extractedText.data.take 12000⟩
    let hasLegalContent := LEGAL_KEYWORDS.any fun kw => includes text kw
    if hasLegalContent then false else true

/-- Rich sample extraction result with five populated fields. -/
def exRichData : VendorStructuredData :=
  { pricing_terms := some (.str "USD 10 per seat")
    liability_clauses := some (.str "Capped at fees paid")
    termination_terms := some (.str "30 days notice")
    data_residency_locations := some (.str "EU")
    compliance_references := some (.str "SOC 2") }

/-- Sample scraped marketing text free of every legal keyword stem. -/
def exMarketingText : String :=
  "Welcome to Acme. We build great products for teams."

/-! ## Alert gate (`alert-preferences.ts`, `alert.ts`)

The Resend client and the `process.env` configuration are external; they are
modelled by `AlertEnv` (with `none` for an unset or empty variable) and the
transport outcome of one send call.  Only the severity of the alert
parameters influences control flow; the remaining `AlertParams` fields feed
the email body only. -/

inductive TransportOutcome where
  | ok | errorResult | threw
deriving DecidableEq, Repr

structure AlertEnv where
  resendApiKey : Option String := none
  alertEmail : Option String := none
  alertSeveritiesRaw : Option String := none
  severitiesOverride : Option (List Severity) := none
deriving DecidableEq, Repr

def parseSeverity? (s : String) : Option Severity :=
  if s == "low" then some .low
  else if s == "medium" then some .medium
  else if s == "high" then some .high
  else none

/-- Embedding of `parseEnvSeverities` from `alert-preferences.ts`: split the env value on
commas and whitespace, keep the valid severities, default to
`[medium, high]`. -/
def parseEnvSeverities (raw : Option String) : List Severity :=
  match raw with
  | none => [.medium, .high]
  | some r =>
    let trimmed := jsToLower (jsTrim r)
    if trimmed == "" then [.medium, .high]
    else
      let parts := ((splitChars (fun c => c = ',' || isWsChar c) trimmed.data).map
        (fun l => (⟨l⟩ : String))).filter (fun s => s ≠ "")
      let out := parts.filterMap parseSeverity?
      if out.length > 0 then out else [.medium, .high]

/-- Embedding of `getAlertSeverities` from `alert-preferences.ts`. -/
def getAlertSeverities (env : AlertEnv) : List Severity :=
  match env.severitiesOverride with
  | some o => o
  | none => parseEnvSeverities env.alertSeveritiesRaw

/-- Embedding of `shouldSendAlert` from `alert-preferences.ts`. -/
def shouldSendAlert (env : AlertEnv) (severity : Severity) : Bool :=
  (getAlertSeverities env).contains severity

/-- Embedding of `sendRiskAlert` from `alert.ts`: false without a configured client and
recipient, false when the severity is not selected, then one transport call
whose error result or thrown exception is caught and resolved to false. -/
def sendRiskAlert (env : AlertEnv) (transport : TransportOutcome) (severity : Severity) : Bool :=
  if env.resendApiKey.isNone || env.alertEmail.isNone then false
  else if !shouldSendAlert env severity then false
  else
    match transport with
    | .ok => true
    | .errorResult => false
    | .threw => false

/-- Dispatch is attempted iff both early returns of `sendRiskAlert` are
passed: a configured channel and a selected severity. -/
def alertDispatchAttempted (env : AlertEnv) (severity : Severity) : Bool :=
  !(env.resendApiKey.isNone || env.alertEmail.isNone) && shouldSendAlert env severity

/-! ## Structured-data keyword filter (`relevanceFilter.ts`) -/

def KEEP_KEYWORDS : List String :=
  ["price", "pricing", "fee", "charge", "billing", "subscription", "cost",
   "rate", "liability", "indemnify", "indemnification", "damages",
   "governing law", "arbitration", "termination", "renewal", "notice",
   "data", "encryption", "security", "retention", "breach", "incident",
   "residency", "subprocessors", "compliance", "gdpr", "soc", "iso", "sla",
   "uptime", "availability", "downtime", "support", "response time",
   "resolution time", "service level", "export", "portability",
   "termination fee", "cancellation", "contract length"]

def REMOVE_KEYWORDS : List String :=
  ["budget", "expenditure", "income statement", "internal report",
   "staffing", "payroll", "audit expense", "accounting summary",
   "government report", "annual financials"]

/-- Embedding of `toArray` from `relevanceFilter.ts`: a list keeps its non-blank entries,
a string becomes a one-element list of its trimmed value unless blank. -/
def toArrayVal : StrOrList → List String
  | .list l => l.filter (fun x => jsTrim x ≠ "")
  | .str s => if jsTrim s = "" then [] else [jsTrim s]

/-- Embedding of `isRelevant` from `relevanceFilter.ts`: no remove-keyword, and at least
one keep-keyword. -/
def entryIsRelevant (entry : String) : Bool :=
  let lower := jsToLower entry
  if REMOVE_KEYWORDS.any (fun kw => includes lower kw) then false
  else KEEP_KEYWORDS.any (fun kw => includes lower kw)

/-- Per-key body of `filterStructuredData`: skip a key whose value has no
surviving entries, store a single survivor as a string, several as a list,
and an all-filtered-out value as the empty list. -/
def filterFieldVal (v : StrOrList) : Option StrOrList :=
  let arr := toArrayVal v
  if arr = [] then none
  else
    match arr.filter entryIsRelevant with
    | [] => some (.list [])
    | [x] => some (.str x)
    | l => some (.list l)

/-- Embedding of `filterStructuredData` from `relevanceFilter.ts`, applied key by key;
the skip keys (`summary` and friends) are dropped. -/
def filterStructuredData (data : VendorStructuredData) : VendorStructuredData :=
  { pricing_terms := data.pricing_terms.bind filterFieldVal
    fee_structures := data.fee_structures.bind filterFieldVal
    liability_clauses := data.liability_clauses.bind filterFieldVal
    indemnification_terms := data.indemnification_terms.bind filterFieldVal
    termination_terms := data.termination_terms.bind filterFieldVal
    renewal_terms := data.renewal_terms.bind filterFieldVal
    data_retention_policies := data.data_retention_policies.bind filterFieldVal
    data_residency_locations := data.data_residency_locations.bind filterFieldVal
    encryption_practices := data.encryption_practices.bind filterFieldVal
    compliance_references := data.compliance_references.bind filterFieldVal
    sla_uptime_commitments := data.sla_uptime_commitments.bind filterFieldVal
    support_response_times := data.support_response_times.bind filterFieldVal
    data_export_rights := data.data_export_rights.bind filterFieldVal
    summary := none }

/-! ## Extraction candidates and loop (`reducto.ts`) -/

def COMMON_LEGAL_PATHS : List String :=
  ["/legal", "/terms", "/terms-of-service", "/privacy", "/tos",
   "/terms.html", "/legal.html"]

/-- Embedding of `getExtractionUrls` from `reducto.ts`: deduplicated document links, then
the common legal paths on the base origin, the homepage last, capped at 4. -/
def getExtractionUrls (docLinks : List String) (baseUrl : String) : List String :=
  let deduped := docLinks.foldl
    (fun (acc : List String) u => if u ≠ "" ∧ ¬ acc.contains u then acc ++ [u] else acc) []
  let withPaths :=
    match parseUrl baseUrl with
    | none => deduped
    | some b =>
      let origin := b.scheme ++ "://" ++ b.host
      let acc2 := COMMON_LEGAL_PATHS.foldl
        (fun (acc : List String) path =>
          let full := origin ++ path
          if ¬ acc.contains full then acc ++ [full] else acc) deduped
      if ¬ acc2.contains (origin ++ "/") then acc2 ++ [origin ++ "/"] else acc2
  withPaths.take 4

/-- Number of keys of the record, the free-text `summary` included, as
`Object.keys(data).length` counts them. -/
def keysCount (data : VendorStructuredData) : Nat :=
  fieldCount data + (if data.summary.isSome then 1 else 0)

/-- Embedding of `extractFromUrls` from `reducto.ts`: call the external extraction
collaborator (the oracle `extract`) on each candidate in order; the first
non-empty result wins and the loop stops, reporting the winning source URL
alongside the data. -/
def extractFromUrls (extract : String → Option VendorStructuredData) :
    List String → Option (VendorStructuredData × String)
  | [] => none
  | u :: rest =>
    match extract u with
    | some data =>
      if keysCount data > 0 then some (data, u) else extractFromUrls extract rest
    | none => extractFromUrls extract rest

/-- Structured-data adoption step of `monitor.ts` (both branches): take the
result of `extractFromUrls`, and when it is non-empty and not rejected by the
hallucination guard, adopt its keyword-filtered form and its source URL. -/
def adoptStructured (extract : String → Option VendorStructuredData)
    (relevantUrls : List String) (extractedText : String) :
    Option (VendorStructuredData × String) :=
  match extractFromUrls extract relevantUrls with
  | none => none
  | some (data, sourceUrl) =>
    if keysCount data > 0 then
      if !looksHallucinated data sourceUrl extractedText then
        some (filterStructuredData data, sourceUrl)
      else none
    else none

/-! ## Cycle orchestrator (`monitor.ts`)

External collaborators are oracle inputs carried by `VendorCtx`; the store is
the ordered list of `DbWrite`s a vendor's processing issues.  The text fields
of a risk event (summary, recommended action, insights) are built from the
structured data by pure template code and carry no control flow, so the event
model keeps the fields the claims speak about: severity, source, the
alert-sent flag and the structured findings. -/

inductive MonitorStatus where
  | unchanged | changed | error | first_snapshot
deriving DecidableEq, Repr

inductive EventSource where
  | rules | ai
deriving DecidableEq, Repr

structure SnapshotDoc where
  contentHash : String
  extractedText : String
  structuredData : Option VendorStructuredData := none
  sourceUrl : Option String := none
deriving DecidableEq, Repr

structure RiskEventDoc where
  severity : Severity
  source : EventSource
  alertSent : Bool
  structuredFindings : Option VendorStructuredData := none
deriving DecidableEq, Repr

inductive DbWrite where
  | snapshot (s : SnapshotDoc)
  | riskEvent (e : RiskEventDoc)
deriving DecidableEq, Repr

structure ScrapeResult where
  success : Bool
  markdown : Option String := none
deriving DecidableEq, Repr

structure CrawlResult where
  success : Bool
  markdown : Option String := none
  pagesCount : Nat := 0
deriving DecidableEq, Repr

structure SearchResult where
  success : Bool
  markdown : Option String := none
deriving DecidableEq, Repr

/-- Narrative-generator outcome (`llm-analysis.ts` catches its own failures
and always yields a well-formed analysis, so the collaborator is total). -/
structure RiskAnalysis where
  severity : Severity
deriving DecidableEq, Repr

/-- Per-vendor oracle: one vendor record plus the responses of every external
collaborator consulted while processing it. -/
structure VendorCtx where
  website : String
  scrape : ScrapeResult
  lastSnapshot : Option SnapshotDoc
  crawl : CrawlResult
  search : SearchResult
  docLinks : List String
  extract : String → Option VendorStructuredData
  analysis : RiskAnalysis
  transport : TransportOutcome

/-- Run-wide configuration: the hash primitive, the research mode and the
alert configuration. -/
structure MonitorConfig where
  sha256hex : String → String
  isDeep : Bool
  alertEnv : AlertEnv

/-- Embedding of `normalizeUrl` from `utils/url.ts`. -/
def normalizeUrl (url : String) : String :=
  let trimmed := jsTrim url
  if trimmed = "" then ""
  else if charsStartWith trimmed.data "http://".data
      || charsStartWith trimmed.data "https://".data then trimmed
  else "https://" ++ trimmed

/-- Embedding of `getDomain` from `utils/url.ts`: hostname with a leading `www.`
stripped; the input echoed back when parsing fails. -/
def getDomain (url : String) : String :=
  let u := normalizeUrl url
  if u = "" then ""
  else
    match parseUrl u with
    | some p =>
      if charsStartWith p.host.data "www.".data then ⟨p.host.data.drop 4⟩ else p.host
    | none => u

/-- Protocol completion at the top of the vendor loop in `monitor.ts`. -/
def ensureProtocol (website : String) : String :=
  let url := jsTrim website
  if charsStartWith url.data "http://".data
      || charsStartWith url.data "https://".data then url
  else "https://" ++ url

/-- Append the multi-page crawl text, as `monitor.ts` does when the crawl
succeeded with non-empty markdown. -/
def appendCrawl (text : String) (crawl : CrawlResult) : String :=
  match crawl.markdown with
  | some m =>
    if crawl.success && m ≠ "" then
      text ++ "\n\n--- CRAWLED PAGES (" ++ toString crawl.pagesCount ++ ") ---\n" ++ m
    else text
  | none => text

/-- Append the external search text, as `monitor.ts` does when the search
succeeded with non-empty markdown. -/
def appendSearch (text : String) (search : SearchResult) : String :=
  match search.markdown with
  | some m =>
    if search.success && m ≠ "" then
      text ++ "\n\n--- EXTERNAL SEARCH (news/web) ---\n" ++ m
    else text
  | none => text

/-- Combined text fingerprinted on the first-snapshot path: scrape plus deep
crawl plus search. -/
def firstCycleText (ctx : VendorCtx) : String :=
  appendSearch (appendCrawl (ctx.scrape.markdown.getD "") ctx.crawl) ctx.search

/-- Combined text fingerprinted when a prior snapshot exists: the deep crawl
is skipped. -/
def changedCycleText (ctx : VendorCtx) : String :=
  appendSearch (ctx.scrape.markdown.getD "") ctx.search

/-- Candidate URLs after the relevance filter, as both extraction sites in
`monitor.ts` compute them. -/
def relevantCandidateUrls (ctx : VendorCtx) : List String :=
  let url := ensureProtocol ctx.website
  (getExtractionUrls ctx.docLinks url).filter (isRelevantVendorUrl (getDomain url))

def firstAdopted (ctx : VendorCtx) : Option (VendorStructuredData × String) :=
  adoptStructured ctx.extract (relevantCandidateUrls ctx) (firstCycleText ctx)

def changedAdopted (ctx : VendorCtx) : Option (VendorStructuredData × String) :=
  adoptStructured ctx.extract (relevantCandidateUrls ctx) (changedCycleText ctx)

/-- Event severity on the first-snapshot path: the narrative collaborator in
deep mode, otherwise the first rule result (or the low fallback).  The
fallback summary/action strings do not influence the severity and are not
modelled. -/
def firstSnapshotSeverity (cfg : MonitorConfig) (ctx : VendorCtx) : Severity :=
  if cfg.isDeep then ctx.analysis.severity
  else (ruleResultToRiskEvent (runRuleEngine none ((firstAdopted ctx).map Prod.fst)) "" "").severity

def firstSnapshotSnap (cfg : MonitorConfig) (ctx : VendorCtx) : SnapshotDoc :=
  { contentHash := hashContent cfg.sha256hex (firstCycleText ctx)
    extractedText := firstCycleText ctx
    structuredData := (firstAdopted ctx).map Prod.fst
    sourceUrl := (firstAdopted ctx).map Prod.snd }

def firstSnapshotEvent (cfg : MonitorConfig) (ctx : VendorCtx) : RiskEventDoc :=
  { severity := firstSnapshotSeverity cfg ctx
    source := if cfg.isDeep then .ai else .rules
    alertSent := sendRiskAlert cfg.alertEnv ctx.transport (firstSnapshotSeverity cfg ctx)
    structuredFindings := (firstAdopted ctx).map Prod.fst }

/-- Event severity on the changed path: the rule engine compares the prior
snapshot's structured data against the newly adopted data (or null). -/
def changedSeverity (cfg : MonitorConfig) (ctx : VendorCtx) (last : SnapshotDoc) : Severity :=
  if cfg.isDeep then ctx.analysis.severity
  else (ruleResultToRiskEvent
    (runRuleEngine last.structuredData ((changedAdopted ctx).map Prod.fst)) "" "").severity

def changedSnap (cfg : MonitorConfig) (ctx : VendorCtx) : SnapshotDoc :=
  { contentHash := hashContent cfg.sha256hex (changedCycleText ctx)
    extractedText := changedCycleText ctx
    structuredData := (changedAdopted ctx).map Prod.fst
    sourceUrl := (changedAdopted ctx).map Prod.snd }

def changedEvent (cfg : MonitorConfig) (ctx : VendorCtx) (last : SnapshotDoc) : RiskEventDoc :=
  { severity := changedSeverity cfg ctx last
    source := if cfg.isDeep then .ai else .rules
    alertSent := sendRiskAlert cfg.alertEnv ctx.transport (changedSeverity cfg ctx last)
    structuredFindings := (changedAdopted ctx).map Prod.fst }

/-- Per-vendor body of `runMonitorCycle`: scrape failure aborts the vendor
with an error and no write; no prior snapshot gives one snapshot write then
one risk-event write and `first_snapshot`; an equal fingerprint gives
`unchanged` and no write; a differing fingerprint gives one snapshot write
then one risk-event write and `changed`. -/
def processVendor (cfg : MonitorConfig) (ctx : VendorCtx) : MonitorStatus × List DbWrite :=
  if ctx.scrape.success = false then (.error, [])
  else
    match ctx.lastSnapshot with
    | none =>
      (.first_snapshot,
       [.snapshot (firstSnapshotSnap cfg ctx), .riskEvent (firstSnapshotEvent cfg ctx)])
    | some last =>
      if last.contentHash == hashContent cfg.sha256hex (changedCycleText ctx) then
        (.unchanged, [])
      else
        (.changed,
         [.snapshot (changedSnap cfg ctx), .riskEvent (changedEvent cfg ctx last)])

inductive CycleEvent where
  | progress (current total : Nat)
  | result (current total : Nat) (status : MonitorStatus)
  | complete (results : List MonitorStatus)
deriving DecidableEq, Repr

/-- Cancellation flag as observed at the check that opens loop iteration `i`:
a request issued during the run arrives before checkpoint `arrival`, and the
flag, once set, stays set. -/
def cancelledAt (arrival : Option Nat) (i : Nat) : Bool :=
  match arrival with
  | some a => decide (a ≤ i)
  | none => false

/-- Vendor loop of `runMonitorCycle`: check the cancellation flag, emit a
progress event, process the vendor, emit a result event; on observed
cancellation or exhaustion emit a complete event carrying the accumulated
results. -/
def cycleLoop (cfg : MonitorConfig) (arrival : Option Nat) (total : Nat) :
    Nat → List VendorCtx → List MonitorStatus → List MonitorStatus × List CycleEvent
  | _, [], acc => (acc, [CycleEvent.complete acc])
  | i, v :: rest, acc =>
    if cancelledAt arrival i then (acc, [CycleEvent.complete acc])
    else
      let st := (processVendor cfg v).1
      let next := cycleLoop cfg arrival total (i + 1) rest (acc ++ [st])
      (next.1, CycleEvent.progress i total :: CycleEvent.result (i + 1) total st :: next.2)

/-- Embedding of `runMonitorCycle` from `monitor.ts`: `resetCancellation()` runs first, so
the shared flag's value at entry (`initialCancelFlag`) is discarded and only
requests arriving during the run (`arrival`) are observed. -/
def runMonitorCycle (initialCancelFlag : Bool) (cfg : MonitorConfig)
    (arrival : Option Nat) (vendors : List VendorCtx) :
    List MonitorStatus × List CycleEvent :=
  let _reset := initialCancelFlag = false
  cycleLoop cfg arrival vendors.length 0 vendors []

/-- Sample run configuration: basic research mode, no alert channel, the
identity in place of the external SHA-256 primitive. -/
def exCfg : MonitorConfig := { sha256hex := id, isDeep := false, alertEnv := {} }

/-- Sample vendor whose freshly scraped content hashes to the prior
snapshot's fingerprint. -/
def exCtxUnchanged : VendorCtx :=
  { website := "acme.com"
    scrape := { success := true, markdown := some "same content" }
    lastSnapshot := some { contentHash := "same content", extractedText := "same content" }
    crawl := { success := false }
    search := { success := false }
    docLinks := []
    extract := fun _ => none
    analysis := { severity := .low }
    transport := .errorResult }

/-- Number of vendors the loop still processes when the cancellation request
arrives before checkpoint `arrival` and the loop is at checkpoint `i` with
`len` vendors left. -/
def processedCount (arrival : Option Nat) (i len : Nat) : Nat :=
  match arrival with
  | none => len
  | some a => min (a - i) len

/-- Modest sample extraction result: one populated field. -/
def exModestData : VendorStructuredData := { pricing_terms := some (.str "USD 10 per seat") }

/-- Sample extraction oracle: rich data from the bare homepage, modest data
from the terms page, nothing elsewhere. -/
def exExtract : String → Option VendorStructuredData := fun u =>
  if u == "https://acme.com/" then some exRichData
  else if u == "https://acme.com/terms" then some exModestData
  else none

/-- Sample alert configuration with a channel and the default severity set. -/
def exAlertEnv : AlertEnv :=
  { resendApiKey := some "key", alertEmail := some "alerts@example.com" }

/-- Prior structured data with pricing facts and compliance references. -/
def exPrevStructured : VendorStructuredData :=
  { pricing_terms := some (.str "USD 10"), compliance_references := some (.str "SOC 2") }

def exLastSnap : SnapshotDoc :=
  { contentHash := "oldhash", extractedText := "old content"
    structuredData := some exPrevStructured }

/-- Vendor whose content changed and whose extraction yields nothing. -/
def exCtxChanged : VendorCtx :=
  { website := "acme.com"
    scrape := { success := true, markdown := some "new content" }
    lastSnapshot := some exLastSnap
    crawl := { success := false }
    search := { success := false }
    docLinks := []
    extract := fun _ => none
    analysis := { severity := .low }
    transport := .errorResult }

/-- Prior structured data holding only compliance references. -/
def exPrevCompliance : VendorStructuredData :=
  { compliance_references := some (.str "SOC 2") }

def exLastSnapCompliance : SnapshotDoc :=
  { contentHash := "oldhash", extractedText := "old content"
    structuredData := some exPrevCompliance }

/-- Changed vendor whose prior snapshot holds only compliance references. -/
def exCtxChangedCompliance : VendorCtx :=
  { website := "acme.com"
    scrape := { success := true, markdown := some "new content" }
    lastSnapshot := some exLastSnapCompliance
    crawl := { success := false }
    search := { success := false }
    docLinks := []
    extract := fun _ => none
    analysis := { severity := .low }
    transport := .errorResult }

/-! ## Theorems -/

theorem dropRightWs_cons (c : Char) (rest : List Char) :
    dropRightWs (c :: rest)
      = if dropRightWs rest = [] then (if isWsChar c then [] else [c])
        else c :: dropRightWs rest := rfl

theorem collapseWsRuns_cons₂ (c d : Char) (rest : List Char) :
    collapseWsRuns (c :: d :: rest)
      = if isWsChar c && c = d then collapseWsRuns (d :: rest)
        else c :: collapseWsRuns (d :: rest) := rfl

theorem squeezeWs_cons₂ (c d : Char) (rest : List Char) :
    squeezeWs (c :: d :: rest)
      = if isWsChar c && isWsChar d then squeezeWs (d :: rest)
        else (if isWsChar c then ' ' else c) :: squeezeWs (d :: rest) := rfl

theorem collapseWsRuns_cons (rest : List Char) :
    ∀ d : Char, ∃ t, collapseWsRuns (d :: rest) = d :: t := by
  induction rest with
  | nil => intro d; exact ⟨[], rfl⟩
  | cons e r ih =>
    intro d
    by_cases h : (isWsChar d && d = e) = true
    · obtain ⟨t, ht⟩ := ih e
      have hd : d = e := by
        rw [Bool.and_eq_true] at h
        exact of_decide_eq_true h.2
      exact ⟨t, by rw [collapseWsRuns_cons₂, if_pos h, ht, hd]⟩
    · exact ⟨collapseWsRuns (e :: r), by rw [collapseWsRuns_cons₂, if_neg h]⟩

theorem dropRightWs_cons_of_ne_nil {d : Char} {r : List Char}
    (h : dropRightWs (d :: r) ≠ []) :
    dropRightWs (d :: r) = d :: dropRightWs r := by
  by_cases hr : dropRightWs r = []
  · by_cases hwd : isWsChar d
    · exact absurd (by rw [dropRightWs_cons, if_pos hr, if_pos hwd]) h
    · rw [dropRightWs_cons, if_pos hr, if_neg hwd, hr]
  · rw [dropRightWs_cons, if_neg hr]

theorem squeezeWs_collapseWsRuns (l : List Char) :
    squeezeWs (collapseWsRuns l) = squeezeWs l := by
  induction l with
  | nil => rfl
  | cons c rest ih =>
    cases rest with
    | nil => rfl
    | cons d r =>
      by_cases h : (isWsChar c && c = d) = true
      · have hwc : isWsChar c = true := (Bool.and_eq_true _ _ |>.mp h).1
        have hcd : c = d := of_decide_eq_true (Bool.and_eq_true _ _ |>.mp h).2
        have hwd : isWsChar d = true := hcd ▸ hwc
        have hX : (isWsChar c && isWsChar d) = true := by rw [hwc, hwd]; rfl
        rw [collapseWsRuns_cons₂, if_pos h, ih, squeezeWs_cons₂ c d r, if_pos hX]
      · obtain ⟨t, ht⟩ := collapseWsRuns_cons r d
        have hkey : squeezeWs (d :: t) = squeezeWs (d :: r) := by rw [← ht, ih]
        rw [collapseWsRuns_cons₂, if_neg h, ht, squeezeWs_cons₂ c d t,
          squeezeWs_cons₂ c d r, hkey]

theorem dropWhile_collapseWsRuns (l : List Char) :
    (collapseWsRuns l).dropWhile isWsChar = collapseWsRuns (l.dropWhile isWsChar) := by
  induction l with
  | nil => rfl
  | cons c rest ih =>
    cases rest with
    | nil =>
      by_cases hwc : isWsChar c = true
      · simp [collapseWsRuns, List.dropWhile, hwc]
      · simp [collapseWsRuns, List.dropWhile, hwc]
    | cons d r =>
      by_cases h : (isWsChar c && c = d) = true
      · have hwc : isWsChar c = true := (Bool.and_eq_true _ _ |>.mp h).1
        have hR : List.dropWhile isWsChar (c :: d :: r) = List.dropWhile isWsChar (d :: r) := by
          rw [List.dropWhile_cons, if_pos hwc]
        rw [collapseWsRuns_cons₂, if_pos h, ih, hR]
      · obtain ⟨t, ht⟩ := collapseWsRuns_cons r d
        rw [collapseWsRuns_cons₂, if_neg h, ht]
        by_cases hwc : isWsChar c = true
        · have hL : List.dropWhile isWsChar (c :: d :: t) = List.dropWhile isWsChar (d :: t) := by
            rw [List.dropWhile_cons, if_pos hwc]
          have hR : List.dropWhile isWsChar (c :: d :: r) = List.dropWhile isWsChar (d :: r) := by
            rw [List.dropWhile_cons, if_pos hwc]
          rw [hL, hR, ← ht, ih]
        · have hL : List.dropWhile isWsChar (c :: d :: t) = c :: d :: t := by
            rw [List.dropWhile_cons, if_neg hwc]
          have hR : List.dropWhile isWsChar (c :: d :: r) = c :: d :: r := by
            rw [List.dropWhile_cons, if_neg hwc]
          rw [hL, hR, collapseWsRuns_cons₂, if_neg h, ht]

theorem dropRightWs_collapseWsRuns (l : List Char) :
    dropRightWs (collapseWsRuns l) = collapseWsRuns (dropRightWs l) := by
  induction l with
  | nil => rfl
  | cons c rest ih =>
    cases rest with
    | nil =>
      by_cases hwc : isWsChar c = true
      · simp [collapseWsRuns, dropRightWs, hwc]
      · simp [collapseWsRuns, dropRightWs, hwc]
    | cons d r =>
      by_cases h : (isWsChar c && c = d) = true
      · -- collapse merges c into the run starting at d
        have hwc : isWsChar c = true := (Bool.and_eq_true _ _ |>.mp h).1
        have hcd : c = d := of_decide_eq_true (Bool.and_eq_true _ _ |>.mp h).2
        rw [collapseWsRuns_cons₂, if_pos h, ih]
        by_cases hdr : dropRightWs (d :: r) = []
        · rw [hdr]
          have hc : dropRightWs (c :: d :: r) = [] := by
            rw [dropRightWs_cons, if_pos hdr, if_pos hwc]
          rw [hc]
        · have hstep : dropRightWs (d :: r) = d :: dropRightWs r :=
            dropRightWs_cons_of_ne_nil hdr
          have hc : dropRightWs (c :: d :: r) = c :: d :: dropRightWs r := by
            rw [dropRightWs_cons, if_neg hdr, hstep]
          rw [hc, collapseWsRuns_cons₂, if_pos h, ← hstep]
      · obtain ⟨t, ht⟩ := collapseWsRuns_cons r d
        rw [collapseWsRuns_cons₂, if_neg h, ht]
        have hrec : dropRightWs (d :: t) = collapseWsRuns (dropRightWs (d :: r)) := by
          rw [← ht, ih]
        by_cases hdr : dropRightWs (d :: r) = []
        · have hdt : dropRightWs (d :: t) = [] := by
            rw [hrec, hdr]; rfl
          rw [dropRightWs_cons, if_pos hdt, dropRightWs_cons c (d :: r), if_pos hdr]
          by_cases hwc : isWsChar c = true
          · simp [hwc, collapseWsRuns]
          · simp [hwc, collapseWsRuns]
        · have hstep : dropRightWs (d :: r) = d :: dropRightWs r :=
            dropRightWs_cons_of_ne_nil hdr
          have hdt : dropRightWs (d :: t) ≠ [] := by
            rw [hrec, hstep]
            obtain ⟨t2, ht2⟩ := collapseWsRuns_cons (dropRightWs r) d
            rw [ht2]; exact List.cons_ne_nil _ _
          rw [dropRightWs_cons, if_neg hdt, hrec,
            dropRightWs_cons c (d :: r), if_neg hdr, hstep,
            collapseWsRuns_cons₂, if_neg h, ← hstep]

theorem normalizeText_collapseWsRuns (l : List Char) :
    squeezeNl (squeezeWs (trimWsChars (collapseWsRuns l)))
      = squeezeNl (squeezeWs (trimWsChars l)) := by
  unfold trimWsChars
  rw [dropWhile_collapseWsRuns, dropRightWs_collapseWsRuns,
    squeezeWs_collapseWsRuns]

theorem normalizeText_eq_of_wsRepetitionOnly (a b : String)
    (h : wsRepetitionOnly a b = true) : normalizeText a = normalizeText b := by
  have heq : collapseWsRuns a.data = collapseWsRuns b.data := by
    simpa [wsRepetitionOnly] using h
  unfold normalizeText
  have ha := normalizeText_collapseWsRuns a.data
  have hb := normalizeText_collapseWsRuns b.data
  rw [← ha, ← hb, heq]

theorem changed_self (v : Option StrOrList) : changed v v = false := by
  simp [changed]

/-- Claim C4: for every structured data `x` — including null (`none`) and data
with string-valued, list-valued, or absent fields — `runRuleEngine x x`
returns the empty list. -/
theorem claim_C4_rule_engine_diagonal (x : Option VendorStructuredData) :
    runRuleEngine x x = [] := by
  simp [runRuleEngine, changed_self]

/-- Claim C3 counterexample: two structured-data snapshots that differ only in
the data-residency field ("EU" versus "eu") for which `runRuleEngine` returns
no result at all rather than exactly one high-severity result: field values
are normalized (trimmed, lowercased) before the equality check, so a
case-only difference fires no rule. -/
theorem claim_C3_counterexample :
    exResA.data_residency_locations ≠ exResB.data_residency_locations
    ∧ { exResA with data_residency_locations := none }
        = { exResB with data_residency_locations := none }
    ∧ runRuleEngine (some exResA) (some exResB) = [] := by
  refine ⟨by decide, rfl, by decide⟩

/-- Claim C3 (amended): for two structured-data snapshots that agree outside
the data-residency field and whose data-residency values differ after
normalization (lists joined, trimmed, lowercased), `runRuleEngine` returns
exactly one result and its severity is high; and for snapshots agreeing
outside the compliance-references field whose compliance values differ after
normalization, the single result has severity high when the field went from
non-empty to empty and medium when both values are non-empty. -/
theorem claim_C3_single_field_rules (o n : VendorStructuredData) :
    (({ o with data_residency_locations := none }
        = { n with data_residency_locations := none }) →
      changed o.data_residency_locations n.data_residency_locations = true →
      runRuleEngine (some o) (some n) = [dataResidencyRule]
        ∧ dataResidencyRule.severity = .high)
    ∧ (({ o with compliance_references := none }
        = { n with compliance_references := none }) →
      changed o.compliance_references n.compliance_references = true →
      ((isEmpty o.compliance_references = false ∧ isEmpty n.compliance_references = true) →
        runRuleEngine (some o) (some n) = [complianceRule true]
          ∧ (complianceRule true).severity = .high)
      ∧ ((isEmpty o.compliance_references = false ∧ isEmpty n.compliance_references = false) →
        runRuleEngine (some o) (some n) = [complianceRule false]
          ∧ (complianceRule false).severity = .medium)) := by
  constructor
  · intro h hch
    injection h with hp hf hl hi ht₀ hre hret hres henc hc hs hsu he hsum
    refine ⟨?_, rfl⟩
    simp [runRuleEngine, hp, hf, hl, hi, ht₀, hret, hc, hs, hsu,
      changed_self, hch]
  · intro h hch
    injection h with hp hf hl hi ht₀ hre hret hres henc hc hs hsu he hsum
    constructor
    · rintro ⟨ho, hn⟩
      refine ⟨?_, rfl⟩
      simp [runRuleEngine, hp, hf, hl, hi, ht₀, hret, hres, hs, hsu,
        changed_self, hch, ho, hn]
    · rintro ⟨ho, hn⟩
      refine ⟨?_, rfl⟩
      simp [runRuleEngine, hp, hf, hl, hi, ht₀, hret, hres, hs, hsu,
        changed_self, hch, ho, hn]

/-- Claim C3 witness: the amended theorem evaluated at concrete snapshots
("EU" to "US" residency change; "SOC 2" compliance reference dropped). -/
theorem claim_C3_witness :
    (runRuleEngine (some { data_residency_locations := some (.str "EU") })
        (some { data_residency_locations := some (.str "US") })
      = [dataResidencyRule] ∧ dataResidencyRule.severity = .high)
    ∧ (runRuleEngine (some { compliance_references := some (.str "SOC 2") })
        (some {})
      = [complianceRule true] ∧ (complianceRule true).severity = .high) := by
  constructor
  · exact (claim_C3_single_field_rules
      { data_residency_locations := some (.str "EU") }
      { data_residency_locations := some (.str "US") }).1 rfl (by decide)
  · exact ((claim_C3_single_field_rules
      { compliance_references := some (.str "SOC 2") } {}).2 rfl (by decide)).1
      ⟨by decide, by decide⟩

/-- Claim C2 counterexample: `"a b"` and `"a\nb"` do not differ only by
whitespace repetition (a space is exchanged for a newline), yet their
fingerprints are equal for any hash function — the normalized texts coincide
because `\s+` collapsing erases the kind of whitespace too — so this is not a
SHA-256 collision. -/
theorem claim_C2_counterexample :
    wsRepetitionOnly "a b" "a\nb" = false
    ∧ normalizeText "a b" = normalizeText "a\nb"
    ∧ hashContent id "a b" = hashContent id "a\nb" :=
  ⟨by decide, by decide, by decide⟩

/-- Claim C2 (amended): whitespace-repetition-only differences never change
the fingerprint; more generally the fingerprint is determined by the
normalized text (trimmed, every whitespace run collapsed to one space), and
modulo hash collisions — i.e. for an injective hash — fingerprints agree
exactly when the normalized texts agree. -/
theorem claim_C2_fingerprint (sha256hex : String → String) (a b : String) :
    (wsRepetitionOnly a b = true → hashContent sha256hex a = hashContent sha256hex b)
    ∧ (normalizeText a = normalizeText b → hashContent sha256hex a = hashContent sha256hex b)
    ∧ (Function.Injective sha256hex →
        (hashContent sha256hex a = hashContent sha256hex b ↔ normalizeText a = normalizeText b)) := by
  refine ⟨?_, ?_, ?_⟩
  · intro h
    unfold hashContent
    rw [normalizeText_eq_of_wsRepetitionOnly a b h]
  · intro h
    unfold hashContent
    rw [h]
  · intro hinj
    constructor
    · exact fun h => hinj h
    · intro h
      unfold hashContent
      rw [h]

/-- Claim C2 witness: the amended theorem applied to `"a  b"` and `"a b"`,
which differ only by a repeated space. -/
theorem claim_C2_witness : hashContent id "a  b" = hashContent id "a b" :=
  (claim_C2_fingerprint id "a  b" "a b").1 (by decide)

/-- Claim C5 counterexample: two on-domain URLs on which the claim's
path-only rule fails in both directions.  `https://blog.stripe.com/terms` has
a path (`/terms`) with no block-list keyword and an allow-list keyword, yet
`isRelevantVendorUrl` rejects it — the block-list is matched against the
whole URL string (the `blog.` host label), not against the path.  And
`https://my-pricing.acme.com/` has a path (`/`) containing no allow-list
keyword (and no block keyword anywhere), yet is accepted — the allow-list
`-kw` pattern matches inside the host label, so the allow side is not
path-only either. -/
theorem claim_C5_counterexample :
    isOnVendorDomain "stripe.com" "https://blog.stripe.com/terms" = true
    ∧ specPathHasBlockKeyword "https://blog.stripe.com/terms" = false
    ∧ specPathHasAllowKeyword "https://blog.stripe.com/terms" = true
    ∧ isRelevantVendorUrl "stripe.com" "https://blog.stripe.com/terms" = false
    ∧ isOnVendorDomain "acme.com" "https://my-pricing.acme.com/" = true
    ∧ specPathHasBlockKeyword "https://my-pricing.acme.com/" = false
    ∧ specPathHasAllowKeyword "https://my-pricing.acme.com/" = false
    ∧ isRelevantVendorUrl "acme.com" "https://my-pricing.acme.com/" = true :=
  ⟨by decide, by decide, by decide, by decide, by decide, by decide, by decide, by decide⟩

theorem isRelevantVendorUrl_characterization (vendorDomain url : String) :
    isRelevantVendorUrl vendorDomain url = true
      ↔ (jsTrim vendorDomain ≠ "" ∧ jsTrim url ≠ "" ∧ (parseUrl url).isSome = true
          ∧ isOnVendorDomain vendorDomain url = true
          ∧ hasBlockedPathKeyword url = false
          ∧ hasAllowedPathKeyword url = true) := by
  unfold isRelevantVendorUrl
  by_cases h0 : (jsTrim vendorDomain == "" || jsTrim url == "") = true
  · rw [if_pos h0]
    simp only [Bool.or_eq_true, beq_iff_eq] at h0
    constructor
    · intro h
      exact absurd h (by decide)
    · rintro ⟨h1, h2, _⟩
      rcases h0 with h0 | h0
      · exact absurd h0 h1
      · exact absurd h0 h2
  · rw [if_neg h0]
    simp only [Bool.or_eq_true, beq_iff_eq, not_or] at h0
    obtain ⟨h1, h2⟩ := h0
    cases hp : parseUrl url with
    | none =>
      constructor
      · intro h
        simp at h
      · rintro ⟨_, _, hsome, _⟩
        exact absurd hsome (by decide)
    | some p =>
      by_cases hd : isOnVendorDomain vendorDomain url = true
      · by_cases hb : hasBlockedPathKeyword url = true
        · simp [hd, hb, h1, h2]
        · have hbf : hasBlockedPathKeyword url = false := by simpa using hb
          by_cases ha : hasAllowedPathKeyword url = true
          · simp [hd, hbf, ha, h1, h2]
          · have haf : hasAllowedPathKeyword url = false := by simpa using ha
            simp [hd, hbf, haf, h1, h2]
      · have hdf : isOnVendorDomain vendorDomain url = false := by simpa using hd
        simp [hdf, h1, h2]

/-- Claim C5 (amended): for non-blank inputs and a parseable on-domain
candidate URL, `isRelevantVendorUrl` accepts **iff** no block-list keyword
occurs anywhere in the lowercased URL string (host included) and an
allow-list keyword occurs in the URL in a `/kw` or `-kw` pattern or anywhere
in the path — so both keyword lists are matched beyond the path; in
particular a block keyword anywhere rejects, an on-domain unblocked URL
lacking every allow keyword is rejected, `isRelevant("stripe.com",
"https://stripe.com/terms")` is true and `isRelevant("stripe.com",
"https://blog.stripe.com/terms")` is false. -/
theorem claim_C5_url_filter (vendorDomain url : String) :
    (isRelevantVendorUrl vendorDomain url = true
      ↔ (jsTrim vendorDomain ≠ "" ∧ jsTrim url ≠ "" ∧ (parseUrl url).isSome = true
          ∧ isOnVendorDomain vendorDomain url = true
          ∧ hasBlockedPathKeyword url = false
          ∧ hasAllowedPathKeyword url = true))
    ∧ (hasBlockedPathKeyword url = true → isRelevantVendorUrl vendorDomain url = false)
    ∧ (isOnVendorDomain vendorDomain url = true →
        hasBlockedPathKeyword url = false →
        hasAllowedPathKeyword url = false →
        isRelevantVendorUrl vendorDomain url = false)
    ∧ (isOnVendorDomain vendorDomain url = true →
        hasBlockedPathKeyword url = false →
        hasAllowedPathKeyword url = true →
        jsTrim vendorDomain ≠ "" →
        jsTrim url ≠ "" →
        isRelevantVendorUrl vendorDomain url = true)
    ∧ isRelevantVendorUrl "stripe.com" "https://stripe.com/terms" = true
    ∧ isRelevantVendorUrl "stripe.com" "https://blog.stripe.com/terms" = false := by
  have hchar := isRelevantVendorUrl_characterization vendorDomain url
  refine ⟨hchar, ?_, ?_, ?_, by decide, by decide⟩
  · intro hb
    cases hrel : isRelevantVendorUrl vendorDomain url with
    | false => rfl
    | true =>
      obtain ⟨_, _, _, _, hbf, _⟩ := hchar.mp hrel
      rw [hb] at hbf
      exact absurd hbf (by decide)
  · intro hd hb ha
    cases hrel : isRelevantVendorUrl vendorDomain url with
    | false => rfl
    | true =>
      obtain ⟨_, _, _, _, _, hat⟩ := hchar.mp hrel
      rw [ha] at hat
      exact absurd hat (by decide)
  · intro hd hb ha h₁ h₂
    have hsome : (parseUrl url).isSome = true := by
      cases hp : parseUrl url with
      | none => rw [isOnVendorDomain, hp] at hd; exact absurd hd (by simp)
      | some p => rfl
    exact hchar.mpr ⟨h₁, h₂, hsome, hd, hb, ha⟩

/-- Claim C5 witness: the amended theorem applied at concrete inputs — the
acceptance direction at `https://stripe.com/privacy` and the
no-allow-keyword rejection at the bare homepage `https://acme.com/`, every
hypothesis discharged by evaluation. -/
theorem claim_C5_witness :
    isRelevantVendorUrl "stripe.com" "https://stripe.com/privacy" = true
    ∧ isRelevantVendorUrl "acme.com" "https://acme.com/" = false :=
  ⟨(claim_C5_url_filter "stripe.com" "https://stripe.com/privacy").1.mpr
      ⟨by decide, by decide, by decide, by decide, by decide, by decide⟩,
   (claim_C5_url_filter "acme.com" "https://acme.com/").2.2.1
      (by decide) (by decide) (by decide)⟩

/-- Claim C6: `looksHallucinated` returns true iff at least 4 non-free-text
fields are populated, the source URL path is the bare root, and no legal
keyword stem occurs in the first 12000 characters of the scraped text; with
the concrete cases of the claim: five populated fields, bare-root source and
keyword-free text give true; the same with "Limitation of Liability" in the
text gives false; and a `/terms` source URL gives false. -/
theorem claim_C6_hallucination_guard (data : VendorStructuredData)
    (sourceUrl extractedText : String) :
    (looksHallucinated data sourceUrl extractedText = true
      ↔ (4 ≤ fieldCount data ∧ isHomepage sourceUrl = true
          ∧ (LEGAL_KEYWORDS.any fun kw =>
              includes (jsToLower ⟨extractedText.data.take 12000⟩) kw) = false))
    ∧ looksHallucinated exRichData "https://acme.com/" exMarketingText = true
    ∧ looksHallucinated exRichData "https://acme.com/"
        (exMarketingText ++ " Limitation of Liability.") = false
    ∧ looksHallucinated exRichData "https://acme.com/terms" exMarketingText = false := by
  refine ⟨?_, by decide, by decide, by decide⟩
  unfold looksHallucinated
  by_cases hf : fieldCount data < 4
  · have h4 : ¬ 4 ≤ fieldCount data := by omega
    simp [hf, h4]
  · have h4 : 4 ≤ fieldCount data := Nat.le_of_not_lt hf
    by_cases hh : isHomepage sourceUrl = true
    · by_cases hk : (LEGAL_KEYWORDS.any fun kw =>
          includes (jsToLower ⟨extractedText.data.take 12000⟩) kw) = true
      · simp [hf, hh, hk]
      · simp only [Bool.not_eq_true] at hk
        simp [hf, h4, hh, hk]
    · simp only [Bool.not_eq_true] at hh
      simp [hf, hh]

/-- Claim C6 witness: the iff of the guard theorem applied at the concrete
rich result, bare-root URL and keyword-free text. -/
theorem claim_C6_witness :
    looksHallucinated exRichData "https://acme.com/" exMarketingText = true :=
  (claim_C6_hallucination_guard exRichData "https://acme.com/" exMarketingText).1.mpr
    ⟨by decide, by decide, by decide⟩

/-- Claim C1: per vendor in a cycle, an "unchanged" outcome writes neither a
Snapshot nor a RiskEvent, while a "first_snapshot" or "changed" outcome
writes exactly one Snapshot and exactly one RiskEvent, the Snapshot first —
so no RiskEvent exists without a Snapshot created in the same cycle. -/
theorem claim_C1_cycle_writes (cfg : MonitorConfig) (ctx : VendorCtx) :
    ((processVendor cfg ctx).1 = .unchanged → (processVendor cfg ctx).2 = [])
    ∧ ((processVendor cfg ctx).1 = .first_snapshot ∨ (processVendor cfg ctx).1 = .changed →
        ∃ s e, (processVendor cfg ctx).2 = [.snapshot s, .riskEvent e]) := by
  unfold processVendor
  by_cases hs : ctx.scrape.success = false
  · rw [if_pos hs]
    exact ⟨fun h => by simp at h, fun h => by rcases h with h | h <;> simp at h⟩
  · rw [if_neg hs]
    cases hls : ctx.lastSnapshot with
    | none =>
      exact ⟨fun h => by simp at h,
        fun _ => ⟨firstSnapshotSnap cfg ctx, firstSnapshotEvent cfg ctx, rfl⟩⟩
    | some last =>
      by_cases hh : (last.contentHash == hashContent cfg.sha256hex (changedCycleText ctx)) = true
      · refine ⟨fun _ => ?_, fun h => ?_⟩
        · simp [hh]
        · rcases h with h | h <;> simp [hh] at h
      · refine ⟨fun h => ?_, fun _ => ⟨changedSnap cfg ctx, changedEvent cfg ctx last, ?_⟩⟩
        · simp [hh] at h
        · simp [hh]

/-- Claim C1 witness: the per-vendor theorem applied to a concrete unchanged
cycle, which issues no write. -/
theorem claim_C1_witness :
    (processVendor exCfg exCtxUnchanged).1 = MonitorStatus.unchanged
    ∧ (processVendor exCfg exCtxUnchanged).2 = [] :=
  ⟨by decide, (claim_C1_cycle_writes exCfg exCtxUnchanged).1 (by decide)⟩

theorem cycleLoop_nil (cfg : MonitorConfig) (arrival : Option Nat) (total i : Nat)
    (acc : List MonitorStatus) :
    cycleLoop cfg arrival total i [] acc = (acc, [CycleEvent.complete acc]) := rfl

theorem cycleLoop_cons_cancelled (cfg : MonitorConfig) (arrival : Option Nat)
    (total i : Nat) (v : VendorCtx) (rest : List VendorCtx) (acc : List MonitorStatus)
    (hc : cancelledAt arrival i = true) :
    cycleLoop cfg arrival total i (v :: rest) acc = (acc, [CycleEvent.complete acc]) := by
  simp [cycleLoop, hc]

theorem cycleLoop_cons_live (cfg : MonitorConfig) (arrival : Option Nat)
    (total i : Nat) (v : VendorCtx) (rest : List VendorCtx) (acc : List MonitorStatus)
    (hc : cancelledAt arrival i = false) :
    cycleLoop cfg arrival total i (v :: rest) acc
      = ((cycleLoop cfg arrival total (i + 1) rest (acc ++ [(processVendor cfg v).1])).1,
         CycleEvent.progress i total
           :: CycleEvent.result (i + 1) total ((processVendor cfg v).1)
           :: (cycleLoop cfg arrival total (i + 1) rest (acc ++ [(processVendor cfg v).1])).2) := by
  simp [cycleLoop, hc]

theorem cycleLoop_results (cfg : MonitorConfig) (arrival : Option Nat) (total : Nat) :
    ∀ (vs : List VendorCtx) (i : Nat) (acc : List MonitorStatus),
    (cycleLoop cfg arrival total i vs acc).1
      = acc ++ (vs.take (processedCount arrival i vs.length)).map
          (fun v => (processVendor cfg v).1) := by
  intro vs
  induction vs with
  | nil => intro i acc; simp [cycleLoop_nil]
  | cons v rest ih =>
    intro i acc
    by_cases hc : cancelledAt arrival i = true
    · cases arrival with
      | none => simp [cancelledAt] at hc
      | some a =>
        have ha : a - i = 0 := by
          have : a ≤ i := by simpa [cancelledAt] using hc
          omega
        rw [cycleLoop_cons_cancelled cfg _ total i v rest acc hc]
        simp [processedCount, ha]
    · have hcf : cancelledAt arrival i = false := by simpa using hc
      have hrec := ih (i + 1) (acc ++ [(processVendor cfg v).1])
      rw [cycleLoop_cons_live cfg _ total i v rest acc hcf]
      cases arrival with
      | none =>
        simp only [processedCount] at hrec ⊢
        rw [hrec, List.length_cons, List.take_succ_cons, List.map_cons,
          List.append_assoc, List.singleton_append]
      | some a =>
        have hia : ¬ a ≤ i := by simpa [cancelledAt] using hcf
        have hmin : min (a - i) (rest.length + 1) = min (a - (i + 1)) rest.length + 1 := by
          omega
        simp only [processedCount] at hrec ⊢
        rw [hrec, List.length_cons, hmin, List.take_succ_cons, List.map_cons,
          List.append_assoc, List.singleton_append]

theorem cycleLoop_complete_event (cfg : MonitorConfig) (arrival : Option Nat) (total : Nat) :
    ∀ (vs : List VendorCtx) (i : Nat) (acc : List MonitorStatus),
    ∃ pre, (cycleLoop cfg arrival total i vs acc).2
      = pre ++ [CycleEvent.complete (cycleLoop cfg arrival total i vs acc).1] := by
  intro vs
  induction vs with
  | nil => intro i acc; exact ⟨[], rfl⟩
  | cons v rest ih =>
    intro i acc
    by_cases hc : cancelledAt arrival i = true
    · refine ⟨[], ?_⟩
      rw [cycleLoop_cons_cancelled cfg _ total i v rest acc hc]
      rfl
    · have hcf : cancelledAt arrival i = false := by simpa using hc
      obtain ⟨pre, hpre⟩ := ih (i + 1) (acc ++ [(processVendor cfg v).1])
      refine ⟨CycleEvent.progress i total
        :: CycleEvent.result (i + 1) total ((processVendor cfg v).1) :: pre, ?_⟩
      rw [cycleLoop_cons_live cfg _ total i v rest acc hcf]
      simp only [List.cons_append]
      rw [hpre]

/-- Claim C10: `runMonitorCycle` resets the shared cancellation flag at
entry, so a request issued before the cycle starts never cancels it (the
outcome is independent of the flag's initial value, and with no in-run
request every vendor is processed even from a set flag); an in-run request
is observed only at the start of a vendor-loop iteration, after which no
further vendor is processed; and the cycle always ends with a complete event
carrying exactly the accumulated partial results. -/
theorem claim_C10_cancellation (cfg : MonitorConfig) (arrival : Option Nat)
    (vendors : List VendorCtx) :
    (∀ b₁ b₂ : Bool,
      runMonitorCycle b₁ cfg arrival vendors = runMonitorCycle b₂ cfg arrival vendors)
    ∧ (arrival = none →
        (runMonitorCycle true cfg arrival vendors).1
          = vendors.map (fun v => (processVendor cfg v).1))
    ∧ (∀ a, arrival = some a →
        (runMonitorCycle true cfg arrival vendors).1
          = (vendors.take a).map (fun v => (processVendor cfg v).1))
    ∧ (∃ pre, (runMonitorCycle true cfg arrival vendors).2
        = pre ++ [CycleEvent.complete (runMonitorCycle true cfg arrival vendors).1]) := by
  refine ⟨fun b₁ b₂ => rfl, ?_, ?_, ?_⟩
  · intro h
    subst h
    rw [runMonitorCycle]
    rw [cycleLoop_results cfg none vendors.length vendors 0 []]
    simp [processedCount]
  · intro a h
    subst h
    rw [runMonitorCycle]
    rw [cycleLoop_results cfg (some a) vendors.length vendors 0 []]
    simp only [processedCount, Nat.sub_zero, List.nil_append]
    by_cases hlen : a ≤ vendors.length
    · rw [min_eq_left hlen]
    · rw [min_eq_right (le_of_not_le hlen),
        List.take_length, List.take_of_length_le (le_of_not_le hlen)]
  · exact cycleLoop_complete_event cfg arrival vendors.length vendors 0 []

/-- Claim C10 witness: a two-vendor run with a cancellation request arriving
before the second iteration check processes exactly the first vendor. -/
theorem claim_C10_witness :
    (runMonitorCycle true exCfg (some 1) [exCtxUnchanged, exCtxUnchanged]).1
      = [MonitorStatus.unchanged] := by
  have h := (claim_C10_cancellation exCfg (some 1) [exCtxUnchanged, exCtxUnchanged]).2.2.1 1 rfl
  rw [h]
  decide

/-- Claim C7 counterexample: with the homepage first and the terms page
second, the extraction loop stops at the homepage (first non-empty result),
the hallucination guard then rejects that single winner, and the cycle adopts
no structured data at all — even though the terms-page candidate would have
produced a non-empty result that passes the guard.  The claim instead says
the adopted data comes from the first candidate that is non-empty *and* not
guard-rejected, which here would be the terms page. -/
theorem claim_C7_counterexample :
    extractFromUrls exExtract ["https://acme.com/", "https://acme.com/terms"]
      = some (exRichData, "https://acme.com/")
    ∧ looksHallucinated exRichData "https://acme.com/" exMarketingText = true
    ∧ adoptStructured exExtract ["https://acme.com/", "https://acme.com/terms"]
        exMarketingText = none
    ∧ exExtract "https://acme.com/terms" = some exModestData
    ∧ 0 < keysCount exModestData
    ∧ looksHallucinated exModestData "https://acme.com/terms" exMarketingText = false :=
  ⟨by decide, by decide, by decide, by decide, by decide, by decide⟩

theorem extractFromUrls_first (extract : String → Option VendorStructuredData) :
    ∀ (pre : List String) (u : String) (post : List String) (d : VendorStructuredData),
    (∀ v ∈ pre, ∀ dd, extract v = some dd → keysCount dd = 0) →
    extract u = some d → 0 < keysCount d →
    extractFromUrls extract (pre ++ u :: post) = some (d, u) := by
  intro pre
  induction pre with
  | nil =>
    intro u post d _ hu hd
    simp only [List.nil_append, extractFromUrls, hu]
    rw [if_pos hd]
  | cons v vs ih =>
    intro u post d hpre hu hd
    cases hev : extract v with
    | none =>
      simp only [List.cons_append, extractFromUrls, hev]
      exact ih u post d (fun w hw => hpre w (List.mem_cons_of_mem v hw)) hu hd
    | some dd =>
      have h0 : keysCount dd = 0 := hpre v (List.mem_cons_self v vs) dd hev
      simp only [List.cons_append, extractFromUrls, hev]
      rw [if_neg (by omega)]
      exact ih u post d (fun w hw => hpre w (List.mem_cons_of_mem v hw)) hu hd

/-- Claim C7 (amended): the extraction loop stops at the first candidate, in
order, whose extraction result is non-empty after schema normalization —
regardless of everything after it, so no later candidate's extraction is
invoked; the hallucination guard is applied only to that single winner, whose
keyword-filtered data is adopted when the guard passes, while a guard
rejection leaves the cycle without structured data instead of trying the
remaining candidates. -/
theorem claim_C7_first_nonempty_wins
    (extract : String → Option VendorStructuredData)
    (pre post : List String) (u : String) (d : VendorStructuredData) (text : String)
    (hpre : ∀ v ∈ pre, ∀ dd, extract v = some dd → keysCount dd = 0)
    (hu : extract u = some d) (hd : 0 < keysCount d) :
    extractFromUrls extract (pre ++ u :: post) = some (d, u)
    ∧ adoptStructured extract (pre ++ u :: post) text
        = if looksHallucinated d u text = true then none
          else some (filterStructuredData d, u) := by
  have hwin := extractFromUrls_first extract pre u post d hpre hu hd
  refine ⟨hwin, ?_⟩
  unfold adoptStructured
  rw [hwin]
  by_cases hb : looksHallucinated d u text = true
  · simp [hb, hd]
  · have hbf : looksHallucinated d u text = false := by simpa using hb
    simp [hbf, hd]

/-- Claim C7 witness: the amended theorem applied to a one-candidate list
whose extraction is non-empty and passes the guard. -/
theorem claim_C7_witness :
    extractFromUrls exExtract ["https://acme.com/terms"]
      = some (exModestData, "https://acme.com/terms")
    ∧ adoptStructured exExtract ["https://acme.com/terms"] exMarketingText
        = some (filterStructuredData exModestData, "https://acme.com/terms") := by
  have h := claim_C7_first_nonempty_wins exExtract [] [] "https://acme.com/terms"
    exModestData exMarketingText (by simp) (by decide) (by decide)
  simp only [List.nil_append] at h
  refine ⟨h.1, ?_⟩
  rw [h.2]
  decide

/-- Claim C8: `sendRiskAlert` returns true iff the notification channel is
configured (API key and recipient address), the severity is in the configured
set — default `[medium, high]` — and the transport call succeeded; dispatch
is attempted iff the channel is configured and the severity selected;
missing configuration, an unselected severity, a transport error and a
transport exception all resolve to false rather than an exception (the model
is a total function over every transport outcome, including a throw); and
the returned boolean is exactly the `alertSent` flag recorded on the risk
event of both the first-snapshot and the changed path. -/
theorem claim_C8_alert_gate (env : AlertEnv) (transport : TransportOutcome) (severity : Severity) :
    (sendRiskAlert env transport severity = true
      ↔ (env.resendApiKey.isSome = true ∧ env.alertEmail.isSome = true
          ∧ (getAlertSeverities env).contains severity = true ∧ transport = .ok))
    ∧ (alertDispatchAttempted env severity = true
      ↔ (env.resendApiKey.isSome = true ∧ env.alertEmail.isSome = true
          ∧ (getAlertSeverities env).contains severity = true))
    ∧ parseEnvSeverities none = [Severity.medium, Severity.high]
    ∧ (∀ cfg ctx, (firstSnapshotEvent cfg ctx).alertSent
        = sendRiskAlert cfg.alertEnv ctx.transport (firstSnapshotEvent cfg ctx).severity)
    ∧ (∀ cfg ctx last, (changedEvent cfg ctx last).alertSent
        = sendRiskAlert cfg.alertEnv ctx.transport (changedEvent cfg ctx last).severity) := by
  refine ⟨?_, ?_, rfl, fun cfg ctx => rfl, fun cfg ctx last => rfl⟩
  · unfold sendRiskAlert shouldSendAlert
    rcases hkey : env.resendApiKey with _ | k
    · simp [hkey]
    · rcases hmail : env.alertEmail with _ | m
      · simp [hkey, hmail]
      · by_cases hs : (getAlertSeverities env).contains severity = true
        · rw [hs]
          cases transport <;> simp [hkey, hmail]
        · have hsf : (getAlertSeverities env).contains severity = false := by simpa using hs
          rw [hsf]
          simp [hkey, hmail]
  · unfold alertDispatchAttempted shouldSendAlert
    rcases hkey : env.resendApiKey with _ | k
    · simp [hkey]
    · rcases hmail : env.alertEmail with _ | m
      · simp [hkey, hmail]
      · by_cases hs : (getAlertSeverities env).contains severity = true
        · rw [hs]
          simp [hkey, hmail]
        · have hsf : (getAlertSeverities env).contains severity = false := by simpa using hs
          rw [hsf]
          simp [hkey, hmail]

/-- Claim C8 witness: the gate theorem applied at a configured channel, a
medium-severity event under the default preference set, and a successful
transport call. -/
theorem claim_C8_witness : sendRiskAlert exAlertEnv .ok .medium = true :=
  (claim_C8_alert_gate exAlertEnv .ok .medium).1.mpr ⟨rfl, rfl, by decide, rfl⟩

/-- Claim C9 counterexample: a changed cycle with no adopted structured data
against a prior snapshot holding pricing facts and compliance references —
the rule engine, invoked with null current data, does fire the compliance
rule in its removed form (severity high), but the cycle is classified by the
*first* firing rule, the pricing rule, so the recorded severity is medium,
not high as the claim states. -/
theorem claim_C9_counterexample :
    (processVendor exCfg exCtxChanged).1 = MonitorStatus.changed
    ∧ changedAdopted exCtxChanged = none
    ∧ isEmpty exPrevStructured.compliance_references = false
    ∧ complianceRule true ∈ runRuleEngine (some exPrevStructured) none
    ∧ (complianceRule true).severity = Severity.high
    ∧ (processVendor exCfg exCtxChanged).2
        = [.snapshot (changedSnap exCfg exCtxChanged),
           .riskEvent (changedEvent exCfg exCtxChanged exLastSnap)]
    ∧ (changedEvent exCfg exCtxChanged exLastSnap).severity = Severity.medium :=
  ⟨by decide, by decide, by decide, by decide, by decide, by decide, by decide⟩

theorem changed_none_of_isEmpty {v : Option StrOrList} (h : isEmpty v = true) :
    changed v none = false := by
  simp only [isEmpty, beq_iff_eq] at h
  simp only [changed]
  rw [h]
  decide

/-- Claim C9 (amended): when the prior snapshot's compliance references are
non-empty and the changed cycle adopts no structured data, the rule engine —
invoked with null current data — fires the compliance rule in its removed
form with severity high; the cycle itself is classified with severity high
when no higher-priority rule fires, i.e. when the prior snapshot's pricing,
fee, liability, termination, indemnification and residency fields are all
empty (otherwise the first firing rule's severity is recorded instead). -/
theorem claim_C9_compliance_removed (prev : VendorStructuredData)
    (hc : isEmpty prev.compliance_references = false) :
    complianceRule true ∈ runRuleEngine (some prev) none
    ∧ (∀ fbS fbA : String,
        isEmpty prev.pricing_terms = true → isEmpty prev.fee_structures = true →
        isEmpty prev.liability_clauses = true → isEmpty prev.termination_terms = true →
        isEmpty prev.indemnification_terms = true →
        isEmpty prev.data_residency_locations = true →
        ruleResultToRiskEvent (runRuleEngine (some prev) none) fbS fbA = complianceRule true)
    ∧ (∀ cfg ctx last, cfg.isDeep = false → changedAdopted ctx = none →
        last.structuredData = some prev →
        isEmpty prev.pricing_terms = true → isEmpty prev.fee_structures = true →
        isEmpty prev.liability_clauses = true → isEmpty prev.termination_terms = true →
        isEmpty prev.indemnification_terms = true →
        isEmpty prev.data_residency_locations = true →
        (changedEvent cfg ctx last).severity = Severity.high) := by
  have hCchanged : changed prev.compliance_references none = true := by
    simp only [isEmpty] at hc
    have hne : ¬ toStr prev.compliance_references = "" := by
      intro heq
      rw [heq] at hc
      exact absurd hc (by decide)
    simp only [changed, bne_iff_ne, ne_eq]
    exact fun heq => hne heq
  have hremoved : (isEmpty (none : Option StrOrList)
      && !isEmpty prev.compliance_references) = true := by
    rw [hc]
    decide
  have hpart2 : ∀ fbS fbA : String,
      isEmpty prev.pricing_terms = true → isEmpty prev.fee_structures = true →
      isEmpty prev.liability_clauses = true → isEmpty prev.termination_terms = true →
      isEmpty prev.indemnification_terms = true →
      isEmpty prev.data_residency_locations = true →
      ruleResultToRiskEvent (runRuleEngine (some prev) none) fbS fbA = complianceRule true := by
    intro fbS fbA h1 h2 h3 h4 h5 h6
    have e1 := changed_none_of_isEmpty h1
    have e2 := changed_none_of_isEmpty h2
    have e3 := changed_none_of_isEmpty h3
    have e4 := changed_none_of_isEmpty h4
    have e5 := changed_none_of_isEmpty h5
    have e6 := changed_none_of_isEmpty h6
    simp [runRuleEngine, ruleResultToRiskEvent,
      e1, e2, e3, e4, e5, e6, hCchanged, hremoved]
  refine ⟨?_, hpart2, ?_⟩
  · simp [runRuleEngine, hCchanged, hremoved, List.mem_append]
  · intro cfg ctx last hdeep hadopt hlast h1 h2 h3 h4 h5 h6
    have hsev : changedSeverity cfg ctx last
        = (ruleResultToRiskEvent (runRuleEngine (some prev) none) "" "").severity := by
      unfold changedSeverity
      rw [hdeep, hadopt, hlast]
      rfl
    have hev : (changedEvent cfg ctx last).severity = changedSeverity cfg ctx last := rfl
    rw [hev, hsev, hpart2 "" "" h1 h2 h3 h4 h5 h6]
    rfl

/-- Claim C9 witness: the amended theorem applied to a concrete changed
cycle whose prior snapshot holds only compliance references — the recorded
severity is high. -/
theorem claim_C9_witness :
    (changedEvent exCfg exCtxChangedCompliance exLastSnapCompliance).severity
      = Severity.high :=
  (claim_C9_compliance_removed exPrevCompliance (by decide)).2.2
    exCfg exCtxChangedCompliance exLastSnapCompliance rfl (by decide) rfl
    (by decide) (by decide) (by decide) (by decide) (by decide) (by decide)

end VendorWatch
